import Mathlib

/-!
Verification of the gateway service in `src/mcp-server/server.py`
(an HTTP-to-subprocess proxy).  The Python source is shallowly embedded:
the JSON values exchanged with the downstream process are an inductive
type, the subprocess invocation is an oracle describing how the spawned
process behaved, and the exception-based control flow of the handler is
explicit `Except` passing.  The fragments of the Python standard library
and of pydantic that the handler's behaviour depends on (`json.loads`,
`json.dumps`, `subprocess.run`, response-model validation) are modelled
alongside, each with a comment saying what it reflects.
-/

/-- JSON values as produced by Python `json.loads` and consumed by
`json.dumps`.  Numbers are restricted to integers: no claim involves a
fractional or exponent literal, and the concrete strings the development
evaluates the parser and serializer on stay inside this fragment. -/
inductive Json where
  | null
  | bool (b : Bool)
  | num (n : Int)
  | str (s : String)
  | arr (items : List Json)
  | obj (fields : List (String × Json))

/-- Whether a JSON value is an object, i.e. whether Python `json.loads`
returned a `dict`. -/
def Json.isObj : Json → Bool
  | .obj _ => true
  | _ => false

/-- Whether a JSON value is the null literal, i.e. whether Python
`json.loads` returned `None`. -/
def Json.isNull : Json → Bool
  | .null => true
  | _ => false

/-- Escape one character for a JSON string literal, following the table
used by Python `json.dumps` for ASCII output. -/
def jsonEscapeChar (c : Char) : String :=
  if c = '"' then "\\\""
  else if c = '\\' then "\\\\"
  else if c = '\n' then "\\n"
  else if c = '\t' then "\\t"
  else if c = '\r' then "\\r"
  else String.singleton c

/-- Serialize a string to a quoted JSON string literal. -/
def jsonEscapeString (s : String) : String :=
  "\"" ++ String.join (s.data.map jsonEscapeChar) ++ "\""

mutual

/-- Model of Python `json.dumps` with its default separators: items are
joined by a comma and a space, keys and values by a colon and a space. -/
def json_dumps : Json → String
  | .null => "null"
  | .bool true => "true"
  | .bool false => "false"
  | .num n => toString n
  | .str s => jsonEscapeString s
  | .arr items => "[" ++ json_dumps_items items ++ "]"
  | .obj fields => "\x7b" ++ json_dumps_fields fields ++ "\x7d"

/-- Comma-and-space separated serialization of array items. -/
def json_dumps_items : List Json → String
  | [] => ""
  | [x] => json_dumps x
  | x :: xs => json_dumps x ++ ", " ++ json_dumps_items xs

/-- Comma-and-space separated serialization of object fields. -/
def json_dumps_fields : List (String × Json) → String
  | [] => ""
  | [(k, v)] => jsonEscapeString k ++ ": " ++ json_dumps v
  | (k, v) :: fs => jsonEscapeString k ++ ": " ++ json_dumps v ++ ", " ++ json_dumps_fields fs

end

/-- Whitespace characters permitted between JSON tokens. -/
def isJsonWs (c : Char) : Bool :=
  c = ' ' || c = '\t' || c = '\n' || c = '\r'

/-- Drop leading JSON whitespace. -/
def skipWs : List Char → List Char
  | [] => []
  | c :: cs => if isJsonWs c then skipWs cs else c :: cs

/-- Parse the body of a JSON string literal, the opening quote already
consumed; returns the decoded characters and the rest of the input. -/
def parseStringBody (fuel : Nat) (cs : List Char) : Option (List Char × List Char) :=
  match fuel with
  | 0 => none
  | fuel + 1 =>
    match cs with
    | [] => none
    | c :: cs =>
      if c = '"' then some ([], cs)
      else if c = '\\' then
        match cs with
        | [] => none
        | e :: cs =>
          let dec : Option Char :=
            if e = '"' then some '"'
            else if e = '\\' then some '\\'
            else if e = '/' then some '/'
            else if e = 'n' then some '\n'
            else if e = 't' then some '\t'
            else if e = 'r' then some '\r'
            else none
          match dec with
          | none => none
          | some d =>
            match parseStringBody fuel cs with
            | some (body, rest) => some (d :: body, rest)
            | none => none
      else if c.val < 32 then none
      else
        match parseStringBody fuel cs with
        | some (body, rest) => some (c :: body, rest)
        | none => none

/-- Parse a run of decimal digits into a natural number, returning the
value, the number of digits consumed, and the rest of the input. -/
def parseDigits (fuel : Nat) (acc : Nat) (count : Nat) (cs : List Char) :
    Nat × Nat × List Char :=
  match fuel with
  | 0 => (acc, count, cs)
  | fuel + 1 =>
    match cs with
    | [] => (acc, count, cs)
    | c :: rest =>
      if c.isDigit then
        parseDigits fuel (acc * 10 + (c.toNat - 48)) (count + 1) rest
      else (acc, count, c :: rest)

/-- Whether the input starts with a superfluous leading zero, which the
JSON grammar (and Python `json.loads`) rejects in numbers. -/
def leadingZero : List Char → Bool
  | '0' :: d :: _ => d.isDigit
  | _ => false

mutual

/-- Parse one JSON value.  Together with `json_loads` below this models
Python `json.loads` on the integer-number, basic-escape fragment of
JSON: fractional and exponent numbers and unicode escapes are rejected
rather than parsed, and no claim evaluates the parser on them. -/
def parseValue (fuel : Nat) (cs : List Char) : Option (Json × List Char) :=
  match fuel with
  | 0 => none
  | fuel + 1 =>
    match skipWs cs with
    | [] => none
    | c :: cs =>
      if c = '\x7b' then
        match skipWs cs with
        | '\x7d' :: rest => some (.obj [], rest)
        | rest => parseFields fuel rest
      else if c = '[' then
        match skipWs cs with
        | ']' :: rest => some (.arr [], rest)
        | rest => parseItems fuel rest
      else if c = '"' then
        match parseStringBody fuel cs with
        | some (body, rest) => some (.str (String.mk body), rest)
        | none => none
      else if c = 't' then
        match cs with
        | 'r' :: 'u' :: 'e' :: rest => some (.bool true, rest)
        | _ => none
      else if c = 'f' then
        match cs with
        | 'a' :: 'l' :: 's' :: 'e' :: rest => some (.bool false, rest)
        | _ => none
      else if c = 'n' then
        match cs with
        | 'u' :: 'l' :: 'l' :: rest => some (.null, rest)
        | _ => none
      else if c = '-' then
        if leadingZero cs then none
        else
          match parseDigits fuel 0 0 cs with
          | (_, 0, _) => none
          | (n, _, rest) => some (.num (-(n : Int)), rest)
      else if c.isDigit then
        if leadingZero (c :: cs) then none
        else
          match parseDigits fuel (c.toNat - 48) 1 cs with
          | (n, _, rest) => some (.num (n : Int), rest)
      else none

/-- Parse the fields of a JSON object after the opening brace, at least
one field expected. -/
def parseFields (fuel : Nat) (cs : List Char) : Option (Json × List Char) :=
  match fuel with
  | 0 => none
  | fuel + 1 =>
    match skipWs cs with
    | '"' :: cs =>
      match parseStringBody fuel cs with
      | none => none
      | some (key, rest) =>
        match skipWs rest with
        | ':' :: rest =>
          match parseValue fuel rest with
          | none => none
          | some (v, rest) =>
            match skipWs rest with
            | ',' :: rest =>
              match parseFields fuel rest with
              | some (.obj fields, rest) => some (.obj ((String.mk key, v) :: fields), rest)
              | _ => none
            | '\x7d' :: rest => some (.obj [(String.mk key, v)], rest)
            | _ => none
        | _ => none
    | _ => none

/-- Parse the items of a JSON array after the opening bracket, at least
one item expected. -/
def parseItems (fuel : Nat) (cs : List Char) : Option (Json × List Char) :=
  match fuel with
  | 0 => none
  | fuel + 1 =>
    match parseValue fuel cs with
    | none => none
    | some (v, rest) =>
      match skipWs rest with
      | ',' :: rest =>
        match parseItems fuel rest with
        | some (.arr items, rest) => some (.arr (v :: items), rest)
        | _ => none
      | ']' :: rest => some (.arr [v], rest)
      | _ => none

end

/-- Model of Python `json.loads`: parse one JSON value and require that
only whitespace follows; `none` stands for `json.JSONDecodeError`. -/
def json_loads (s : String) : Option Json :=
  match parseValue (3 * s.length + 16) s.data with
  | some (j, rest) => if skipWs rest = [] then some j else none
  | none => none

/-- Request model for MCP tool calls (`MCPToolRequest` in the source):
a tool name and an arguments mapping.  The Python `Dict[str, Any]` of
JSON-decodable values is an association list in insertion order. -/
structure MCPToolRequest where
  tool : String
  arguments : List (String × Json)

/-- Response model for MCP tool calls (`MCPToolResponse` in the source):
`data` and `error` both default to `None`. -/
structure MCPToolResponse where
  success : Bool
  data : Option (List (String × Json)) := none
  error : Option String := none

/-- How the spawned downstream process behaved on one invocation: it
either exits within the 30-second timeout with a return code, captured
stdout and captured stderr, or it is still running when the timeout
expires, or `subprocess.run` itself fails with some other exception
(for example a spawn failure). -/
inductive ChildBehavior where
  | exits (returncode : Int) (stdout : String) (stderr : String)
  | exceedsTimeout
  | raises (detail : String)

/-- Outcome of the `subprocess.run` call as seen by the handler:
a completed process, a `subprocess.TimeoutExpired` exception, or some
other exception with its description. -/
inductive SubprocessOutcome where
  | completed (returncode : Int) (stdout : String) (stderr : String)
  | timeoutExpired
  | otherException (detail : String)

/-- Liveness state of the spawned OS process after the invocation. -/
structure ChildProcess where
  running : Bool

/-- Kill the child process (`Popen.kill`). -/
def processKill (_p : ChildProcess) : ChildProcess :=
  { running := false }

/-- Model of CPython `subprocess.run` with a timeout, which the source
calls at lines 88-97: if the child exits in time its output is returned;
if `communicate` raises `TimeoutExpired`, `run` kills the child, waits
for it, and re-raises the exception.  Returns the outcome the caller
sees together with the state of the child process afterwards. -/
def subprocess_run (behavior : ChildBehavior) : SubprocessOutcome × ChildProcess :=
  match behavior with
  | .exits rc out err => (.completed rc out err, { running := false })
  | .exceedsTimeout =>
    let child : ChildProcess := { running := true }
    let child := processKill child
    (.timeoutExpired, child)
  | .raises detail => (.otherException detail, { running := false })

/-- Configuration of the `subprocess.run` call in the source:
the argument vector, `capture_output`, `text`, and `timeout`. -/
structure SubprocessRunCall where
  argv : List String
  capture_output : Bool
  text : Bool
  timeout : Option Nat

/-- The `subprocess.run` invocation built by `call_mcp_tool` (source
lines 88-97): argv is the downstream entry point followed by
`--tool <tool>` and `--args <json.dumps(arguments)>`, with
`capture_output=True`, `text=True`, `timeout=30`. -/
def mcp_subprocess_run_call (request : MCPToolRequest) : SubprocessRunCall :=
  { argv := ["python", "-m", "blockscout_mcp_server",
             "--tool", request.tool,
             "--args", json_dumps (Json.obj request.arguments)],
    capture_output := true,
    text := true,
    timeout := some 30 }

/-- Exceptions that escape the `try` block of `call_mcp_tool` and are
mapped to HTTP errors by its `except` clauses. -/
inductive GatewayExn where
  | timeoutExpired
  | jsonDecodeError
  | unexpected (detail : String)

/-- Description string of the pydantic `ValidationError` raised when
`MCPToolResponse` is constructed with a non-dict `data`.  The exact
library message text is not reproduced; the development relies only on
the fact that constructing the model raises a generic exception whose
description becomes the HTTP detail. -/
def validationErrorDetail : String :=
  "1 validation error for MCPToolResponse: data is not a valid dict"

/-- Model of constructing `MCPToolResponse(success=True, data=output_data)`
(source lines 109-112): the pydantic field `data: Optional[Dict[str, Any]]`
accepts a JSON object as the dict, accepts JSON null as `None` (the
`Optional` half, also the field's default), and rejects every other JSON
value — list, number, string, boolean — with a `ValidationError`, which
the handler's generic `except Exception` clause will catch. -/
def mkSuccessResponse (output_data : Json) : Except GatewayExn MCPToolResponse :=
  match output_data with
  | .obj fields => .ok { success := true, data := some fields }
  | .null => .ok { success := true, data := none }
  | _ => .error (.unexpected validationErrorDetail)

/-- Body of the `try` block of `call_mcp_tool` (source lines 81-112),
parametric in the model `loads` of `json.loads` and in the outcome of
the subprocess invocation: a non-zero return code yields
`success=False` with `error` set to stderr, or `"Unknown error"` when
stderr is empty (Python `result.stderr or "Unknown error"`); on return
code zero stdout is parsed (`none` raises `json.JSONDecodeError`) and
the success response is constructed from the parsed value. -/
def call_mcp_tool_body (loads : String → Option Json)
    (outcome : SubprocessOutcome) : Except GatewayExn MCPToolResponse :=
  match outcome with
  | .timeoutExpired => .error .timeoutExpired
  | .otherException detail => .error (.unexpected detail)
  | .completed returncode stdout stderr =>
    if returncode ≠ 0 then
      .ok { success := false,
            error := some (if stderr = "" then "Unknown error" else stderr) }
    else
      match loads stdout with
      | none => .error .jsonDecodeError
      | some output_data => mkSuccessResponse output_data

/-- Result of one request as seen by the HTTP client: either a JSON body
with a status code (FastAPI returns 200 for a value returned normally),
or an `HTTPException` with a status code and a detail string. -/
inductive HttpResult where
  | ok (status : Nat) (body : MCPToolResponse)
  | httpError (status : Nat) (detail : String)

/-- The `POST /mcp/call` handler `call_mcp_tool` (source lines 67-122):
run the try-block body and map each exception the way the `except`
clauses do — `TimeoutExpired` to 504 `"Request timed out"`,
`JSONDecodeError` to 500 `"Invalid response from MCP server"`, and any
other exception to 500 with its description. -/
def call_mcp_tool (loads : String → Option Json) (_request : MCPToolRequest)
    (outcome : SubprocessOutcome) : HttpResult :=
  match call_mcp_tool_body loads outcome with
  | .ok resp => .ok 200 resp
  | .error .timeoutExpired => .httpError 504 "Request timed out"
  | .error .jsonDecodeError => .httpError 500 "Invalid response from MCP server"
  | .error (.unexpected detail) => .httpError 500 detail

/-- One whole gateway invocation including the fate of the spawned
process: run the subprocess model, feed the outcome to the handler, and
report the HTTP result together with the final child-process state. -/
def gateway_invoke (loads : String → Option Json) (request : MCPToolRequest)
    (behavior : ChildBehavior) : HttpResult × ChildProcess :=
  let (outcome, child) := subprocess_run behavior
  (call_mcp_tool loads request outcome, child)

/-- Query parameters of `POST /mcp/token-transfers` (source lines
140-148): `chain_id` is required, the rest are optional strings
defaulting to `None`. -/
structure TokenTransfersQuery where
  chain_id : String
  address : Option String := none
  age_from : Option String := none
  age_to : Option String := none
  token : Option String := none
  cursor : Option String := none

/-- Python truthiness of an `Optional[str]`: `None` and the empty string
are falsy, every other string is truthy. -/
def pyTruthy : Option String → Bool
  | none => false
  | some s => !(s = "")

/-- One conditional insertion `if v: arguments[key] = v` of the
token-transfers handler: the entry is added only when the optional
value is truthy. -/
def optEntry (key : String) (v : Option String) : List (String × Json) :=
  match v with
  | none => []
  | some s => if s = "" then [] else [(key, Json.str s)]

/-- The arguments mapping built by `get_token_transfers` (source lines
160-171): `chain_id` always, then each optional parameter in source
order, inserted only when truthy. -/
def get_token_transfers_arguments (q : TokenTransfersQuery) : List (String × Json) :=
  [("chain_id", Json.str q.chain_id)]
    ++ optEntry "address" q.address
    ++ optEntry "age_from" q.age_from
    ++ optEntry "age_to" q.age_to
    ++ optEntry "token" q.token
    ++ optEntry "cursor" q.cursor

/-- The `MCPToolRequest` that `get_token_transfers` forwards to
`call_mcp_tool` (source lines 173-176). -/
def get_token_transfers_request (q : TokenTransfersQuery) : MCPToolRequest :=
  { tool := "get_token_transfers", arguments := get_token_transfers_arguments q }

/-- The `POST /mcp/token-transfers` handler: delegate to `call_mcp_tool`
with the built request. -/
def get_token_transfers (loads : String → Option Json) (q : TokenTransfersQuery)
    (outcome : SubprocessOutcome) : HttpResult :=
  call_mcp_tool loads (get_token_transfers_request q) outcome

/-- Helper: on a non-zero return code the handler returns HTTP 200 with
`success=False` and `error` taken from stderr (or the placeholder). -/
lemma call_mcp_tool_nonzero (loads : String → Option Json)
    (request : MCPToolRequest) (rc : Int) (out err : String) (hrc : rc ≠ 0) :
    call_mcp_tool loads request (.completed rc out err)
      = .ok 200 { success := false, data := none,
                  error := some (if err = "" then "Unknown error" else err) } := by
  simp only [call_mcp_tool, call_mcp_tool_body, if_pos hrc]

/-- Helper: on return code zero the handler parses stdout and feeds the
result to the response constructor, or raises `JSONDecodeError`. -/
lemma call_mcp_tool_zero (loads : String → Option Json)
    (request : MCPToolRequest) (out err : String) :
    call_mcp_tool loads request (.completed 0 out err)
      = match loads out with
        | none => .httpError 500 "Invalid response from MCP server"
        | some j =>
          match mkSuccessResponse j with
          | .ok resp => .ok 200 resp
          | .error .timeoutExpired => .httpError 504 "Request timed out"
          | .error .jsonDecodeError => .httpError 500 "Invalid response from MCP server"
          | .error (.unexpected detail) => .httpError 500 detail := by
  simp only [call_mcp_tool, call_mcp_tool_body, if_neg (show ¬((0 : Int) ≠ 0) by simp)]
  cases loads out <;> rfl

/-- C2: when the subprocess exits non-zero the gateway answers with a
normal HTTP 200 carrying `success=False` and `error` equal to the
captured stderr, or the placeholder `"Unknown error"` when stderr is
empty. -/
theorem c2_nonzero_exit_business_error (loads : String → Option Json)
    (request : MCPToolRequest) (rc : Int) (out err : String) (hrc : rc ≠ 0) :
    call_mcp_tool loads request (.completed rc out err)
      = .ok 200 { success := false, data := none,
                  error := some (if err = "" then "Unknown error" else err) } :=
  call_mcp_tool_nonzero loads request rc out err hrc

/-- Witness for C2 at return code 1, stderr `"boom"`. -/
theorem c2_witness :
    call_mcp_tool json_loads ⟨"get_address_info", []⟩ (.completed 1 "" "boom")
      = .ok 200 { success := false, data := none, error := some "boom" } :=
  c2_nonzero_exit_business_error json_loads ⟨"get_address_info", []⟩ 1 "" "boom" (by decide)

/-- C4: when the subprocess invocation raises `TimeoutExpired` the
handler answers with an `HTTPException` of status 504, not with a
`ToolResponse` body. -/
theorem c4_timeout_http_504 (loads : String → Option Json) (request : MCPToolRequest) :
    call_mcp_tool loads request .timeoutExpired
      = .httpError 504 "Request timed out" := rfl

/-- C5: a timed-out invocation yields the 504 response and the spawned
child process is no longer running afterwards, because CPython
`subprocess.run` kills and reaps the child before re-raising
`TimeoutExpired`. -/
theorem c5_timeout_child_killed (loads : String → Option Json) (request : MCPToolRequest) :
    gateway_invoke loads request .exceedsTimeout
      = (.httpError 504 "Request timed out", { running := false }) := rfl

/-- C8: the subprocess is invoked with an argument vector ending in
`--tool <tool> --args <json.dumps(arguments)>` after the downstream
entry point, capturing stdout and stderr as text, with a 30-second
timeout. -/
theorem c8_subprocess_invocation (request : MCPToolRequest) :
    (mcp_subprocess_run_call request).argv
      = ["python", "-m", "blockscout_mcp_server"]
          ++ ["--tool", request.tool, "--args", json_dumps (Json.obj request.arguments)]
    ∧ ["--tool", request.tool, "--args", json_dumps (Json.obj request.arguments)]
        <:+ (mcp_subprocess_run_call request).argv
    ∧ (mcp_subprocess_run_call request).capture_output = true
    ∧ (mcp_subprocess_run_call request).text = true
    ∧ (mcp_subprocess_run_call request).timeout = some 30 :=
  ⟨rfl, ⟨["python", "-m", "blockscout_mcp_server"], rfl⟩, rfl, rfl, rfl⟩

/-- C9: on a non-zero return code the result does not depend on stdout
or on the JSON parser at all — the same `success=False` body is
returned for any two stdout values, even when one of them is valid
JSON. -/
theorem c9_nonzero_exit_ignores_stdout (loads loads2 : String → Option Json)
    (request : MCPToolRequest) (rc : Int) (out out2 err : String) (hrc : rc ≠ 0) :
    call_mcp_tool loads request (.completed rc out err)
      = call_mcp_tool loads2 request (.completed rc out2 err)
    ∧ call_mcp_tool loads request (.completed rc out err)
      = .ok 200 { success := false, data := none,
                  error := some (if err = "" then "Unknown error" else err) } := by
  rw [call_mcp_tool_nonzero loads request rc out err hrc,
      call_mcp_tool_nonzero loads2 request rc out2 err hrc]
  exact ⟨rfl, rfl⟩

/-- Witness for C9 at return code 2 with one non-JSON and one valid-JSON
stdout and empty stderr. -/
theorem c9_witness :
    call_mcp_tool json_loads ⟨"t", []⟩ (.completed 2 "not-json" "")
      = call_mcp_tool json_loads ⟨"t", []⟩ (.completed 2 "\x7b\"x\": 1\x7d" "")
    ∧ call_mcp_tool json_loads ⟨"t", []⟩ (.completed 2 "not-json" "")
      = .ok 200 { success := false, data := none, error := some "Unknown error" } :=
  c9_nonzero_exit_ignores_stdout json_loads json_loads ⟨"t", []⟩ 2
    "not-json" "\x7b\"x\": 1\x7d" "" (by decide)

/-- C3 counterexample: with return code 0 and stdout `"[1]"` — which is
valid JSON but not a JSON object — the gateway does not answer
`success=True`; constructing the response model fails and the request
ends in an HTTP 500, refuting the claim for arbitrary valid JSON. -/
theorem c3_counterexample :
    json_loads "[1]" = some (Json.arr [Json.num 1])
    ∧ call_mcp_tool json_loads ⟨"get_address_info", []⟩ (.completed 0 "[1]" "")
        = .httpError 500 validationErrorDetail :=
  ⟨rfl, rfl⟩

/-- C3 (amended): when the subprocess exits with code 0 and stdout
parses as a JSON object, the gateway answers HTTP 200 with
`success=True` and `data` equal to the parsed object. -/
theorem c3_object_stdout_success (loads : String → Option Json)
    (request : MCPToolRequest) (out err : String) (fields : List (String × Json))
    (hparse : loads out = some (Json.obj fields)) :
    call_mcp_tool loads request (.completed 0 out err)
      = .ok 200 { success := true, data := some fields, error := none } := by
  rw [call_mcp_tool_zero loads request out err, hparse]
  rfl

/-- Witness for the amended C3 at stdout `"{\"x\": 1}"`. -/
theorem c3_witness :
    json_loads "\x7b\"x\": 1\x7d" = some (Json.obj [("x", Json.num 1)])
    ∧ call_mcp_tool json_loads ⟨"get_address_info", []⟩
        (.completed 0 "\x7b\"x\": 1\x7d" "")
        = .ok 200 { success := true, data := some [("x", Json.num 1)], error := none } :=
  ⟨rfl, c3_object_stdout_success json_loads ⟨"get_address_info", []⟩
    "\x7b\"x\": 1\x7d" "" [("x", Json.num 1)] rfl⟩

/-- C6: when the subprocess exits with code 0 but stdout is not valid
JSON, the handler raises an HTTP 500 with the invalid-response detail,
not a `ToolResponse`. -/
theorem c6_invalid_json_http_500 (loads : String → Option Json)
    (request : MCPToolRequest) (out err : String) (hparse : loads out = none) :
    call_mcp_tool loads request (.completed 0 out err)
      = .httpError 500 "Invalid response from MCP server" := by
  rw [call_mcp_tool_zero loads request out err, hparse]

/-- Witness for C6 at stdout `"not-json"`. -/
theorem c6_witness :
    call_mcp_tool json_loads ⟨"get_address_info", []⟩ (.completed 0 "not-json" "")
      = .httpError 500 "Invalid response from MCP server" :=
  c6_invalid_json_http_500 json_loads ⟨"get_address_info", []⟩ "not-json" "" rfl

/-- C10 counterexample: stdout `"null"` with exit code 0 parses as valid
non-object JSON, yet the handler returns HTTP 200 with `success=True`
and `data=None` — pydantic accepts `None` for `Optional[Dict[str, Any]]`
— refuting the claim that non-object valid JSON never yields
`success=True`. -/
theorem c10_counterexample :
    json_loads "null" = some Json.null
    ∧ Json.isObj Json.null = false
    ∧ call_mcp_tool json_loads ⟨"get_address_info", []⟩ (.completed 0 "null" "")
        = .ok 200 { success := true, data := none, error := none } :=
  ⟨rfl, rfl, rfl⟩

/-- C10 (amended): when the subprocess exits with code 0 and stdout
parses as a JSON value that is neither an object nor null, constructing
the response model raises the validation error, so the try block ends
in the generic unexpected-exception branch and the client sees an
HTTP 500 — never a `success=True` body. -/
theorem c10_non_object_non_null_json_http_500 (loads : String → Option Json)
    (request : MCPToolRequest) (out err : String) (j : Json)
    (hparse : loads out = some j) (hobj : j.isObj = false)
    (hnull : j.isNull = false) :
    call_mcp_tool_body loads (.completed 0 out err)
      = .error (.unexpected validationErrorDetail)
    ∧ call_mcp_tool loads request (.completed 0 out err)
      = .httpError 500 validationErrorDetail := by
  have hbody : call_mcp_tool_body loads (.completed 0 out err)
      = .error (.unexpected validationErrorDetail) := by
    simp only [call_mcp_tool_body, if_neg (show ¬((0 : Int) ≠ 0) by simp), hparse]
    cases j with
    | obj fields => simp [Json.isObj] at hobj
    | null => simp [Json.isNull] at hnull
    | bool b => rfl
    | num n => rfl
    | str s => rfl
    | arr items => rfl
  refine ⟨hbody, ?_⟩
  simp only [call_mcp_tool, hbody]

/-- Witness for the amended C10 at stdout `"42"`, which parses as a JSON
number. -/
theorem c10_witness :
    json_loads "42" = some (Json.num 42)
    ∧ call_mcp_tool_body json_loads (.completed 0 "42" "")
        = .error (.unexpected validationErrorDetail)
    ∧ call_mcp_tool json_loads ⟨"get_address_info", []⟩ (.completed 0 "42" "")
        = .httpError 500 validationErrorDetail :=
  ⟨rfl,
   (c10_non_object_non_null_json_http_500 json_loads ⟨"get_address_info", []⟩
     "42" "" (Json.num 42) rfl rfl rfl).1,
   (c10_non_object_non_null_json_http_500 json_loads ⟨"get_address_info", []⟩
     "42" "" (Json.num 42) rfl rfl rfl).2⟩

/-- C1 counterexample: stdout `"null"` with exit code 0 produces a
`ToolResponse` body with `success=True` in which both `data` and
`error` are null — pydantic accepts `None` for the
`Optional[Dict[str, Any]]` field — so it is not the case that exactly
one of `data`/`error` is non-null, and `data` is null despite
`success=True`. -/
theorem c1_counterexample :
    json_loads "null" = some Json.null
    ∧ call_mcp_tool json_loads ⟨"get_address_info", []⟩ (.completed 0 "null" "")
        = .ok 200 { success := true, data := none, error := none }
    ∧ ¬((MCPToolResponse.mk true none none).data ≠ none
          ↔ (MCPToolResponse.mk true none none).success = true) :=
  ⟨rfl, rfl, by simp⟩

/-- C1 (amended): whenever the handler returns a `ToolResponse` body
(no HTTP error), `error` is non-null exactly when `success` is false,
and `data` is non-null only when `success` is true — so at most one of
the two is populated; `data` can additionally be null with
`success=True` when the downstream process printed JSON null. -/
theorem c1_amended_response_invariant (loads : String → Option Json)
    (request : MCPToolRequest) (outcome : SubprocessOutcome)
    (status : Nat) (resp : MCPToolResponse)
    (h : call_mcp_tool loads request outcome = .ok status resp) :
    (resp.error ≠ none ↔ resp.success = false)
    ∧ (resp.data ≠ none → resp.success = true)
    ∧ ¬(resp.data ≠ none ∧ resp.error ≠ none) := by
  cases outcome with
  | timeoutExpired => simp [call_mcp_tool, call_mcp_tool_body] at h
  | otherException d => simp [call_mcp_tool, call_mcp_tool_body] at h
  | completed rc out err =>
    by_cases hrc : rc ≠ 0
    · rw [call_mcp_tool_nonzero loads request rc out err hrc] at h
      simp only [HttpResult.ok.injEq] at h
      obtain ⟨-, rfl⟩ := h
      simp
    · rw [not_ne_iff] at hrc
      subst hrc
      rw [call_mcp_tool_zero loads request out err] at h
      cases hl : loads out with
      | none => rw [hl] at h; simp at h
      | some j =>
        rw [hl] at h
        cases j with
        | obj fields =>
          simp only [mkSuccessResponse, HttpResult.ok.injEq] at h
          obtain ⟨-, rfl⟩ := h
          simp
        | null =>
          simp only [mkSuccessResponse, HttpResult.ok.injEq] at h
          obtain ⟨-, rfl⟩ := h
          simp
        | bool b => simp [mkSuccessResponse] at h
        | num n => simp [mkSuccessResponse] at h
        | str s => simp [mkSuccessResponse] at h
        | arr items => simp [mkSuccessResponse] at h

/-- Witness for the amended C1 at a non-zero exit with empty stderr. -/
theorem c1_witness :
    ((MCPToolResponse.mk false none (some "Unknown error")).error ≠ none
      ↔ (MCPToolResponse.mk false none (some "Unknown error")).success = false)
    ∧ ((MCPToolResponse.mk false none (some "Unknown error")).data ≠ none
      → (MCPToolResponse.mk false none (some "Unknown error")).success = true)
    ∧ ¬((MCPToolResponse.mk false none (some "Unknown error")).data ≠ none
        ∧ (MCPToolResponse.mk false none (some "Unknown error")).error ≠ none) :=
  c1_amended_response_invariant json_loads ⟨"get_address_info", []⟩
    (.completed 3 "" "") 200 (MCPToolResponse.mk false none (some "Unknown error")) rfl

/-- Keys of the arguments mapping that `get_token_transfers` forwards to
the generic tool call. -/
def forwardedKeys (q : TokenTransfersQuery) : List String :=
  (get_token_transfers_request q).arguments.map Prod.fst

/-- Helper: the keys contributed by one conditional insertion. -/
lemma optEntry_keys (key : String) (v : Option String) :
    (optEntry key v).map Prod.fst = if pyTruthy v then [key] else [] := by
  cases v with
  | none => rfl
  | some s => by_cases hs : s = "" <;> simp [optEntry, pyTruthy, hs]

/-- Helper: the keys of the forwarded token-transfers mapping are
`chain_id` followed by each optional key exactly when it is truthy. -/
lemma token_transfers_keys (q : TokenTransfersQuery) :
    forwardedKeys q
      = "chain_id" :: ((if pyTruthy q.address then ["address"] else [])
          ++ (if pyTruthy q.age_from then ["age_from"] else [])
          ++ (if pyTruthy q.age_to then ["age_to"] else [])
          ++ (if pyTruthy q.token then ["token"] else [])
          ++ (if pyTruthy q.cursor then ["cursor"] else [])) := by
  simp [forwardedKeys, get_token_transfers_request, get_token_transfers_arguments,
    optEntry_keys]

/-- Helper: no conditional insertion ever contributes a null value. -/
lemma optEntry_not_null (key : String) (v : Option String) :
    (optEntry key v).all (fun kv => !(Json.isNull kv.2)) = true := by
  cases v with
  | none => rfl
  | some s => by_cases hs : s = "" <;> simp [optEntry, hs, Json.isNull]

/-- C7: the mapping forwarded by the token-transfers route always
contains `chain_id`; it contains each optional key exactly when the
corresponding parameter is present and non-empty; no value in the
mapping is ever JSON null; and with only `chain_id` supplied the
mapping is exactly the singleton `chain_id` entry. -/
theorem c7_token_transfers_arguments (q : TokenTransfersQuery) :
    "chain_id" ∈ forwardedKeys q
    ∧ ("address" ∈ forwardedKeys q ↔ pyTruthy q.address = true)
    ∧ ("age_from" ∈ forwardedKeys q ↔ pyTruthy q.age_from = true)
    ∧ ("age_to" ∈ forwardedKeys q ↔ pyTruthy q.age_to = true)
    ∧ ("token" ∈ forwardedKeys q ↔ pyTruthy q.token = true)
    ∧ ("cursor" ∈ forwardedKeys q ↔ pyTruthy q.cursor = true)
    ∧ (get_token_transfers_request q).arguments.all
        (fun kv => !(Json.isNull kv.2)) = true
    ∧ (get_token_transfers_request
        { chain_id := q.chain_id, address := none, age_from := none,
          age_to := none, token := none, cursor := none }).arguments
        = [("chain_id", Json.str q.chain_id)] := by
  have hkeys := token_transfers_keys q
  refine ⟨?_, ?_, ?_, ?_, ?_, ?_, ?_, rfl⟩
  · rw [hkeys]; exact List.mem_cons_self _ _
  · rw [hkeys]; split_ifs <;> simp_all
  · rw [hkeys]; split_ifs <;> simp_all
  · rw [hkeys]; split_ifs <;> simp_all
  · rw [hkeys]; split_ifs <;> simp_all
  · rw [hkeys]; split_ifs <;> simp_all
  · simp only [get_token_transfers_request, get_token_transfers_arguments,
      List.all_append, List.all_cons, List.all_nil, optEntry_not_null, Bool.and_true]
    simp [Json.isNull]
